import Mathlib

/-!
Shallow embedding of the FocusRing overlay application (Electron main process,
`src/main.ts`, together with the earlier revisions kept in the repository).
The hold-detection state machine, the presenter (show/hide/rotate) logic and
the image catalog loading are translated into explicit state-passing
functions; interactions with the platform (the `globalShortcut` API, window
show/hide, IPC sends, timers) are recorded in a trace of `Call`s, and the
outcome of the probe's `globalShortcut.register` call on each tick is an
explicit parameter.
-/

namespace FocusRing

/-- Outcome of the `globalShortcut.register(SHORTCUT, ...)` call made by one
probe tick: the call can throw, or return `true` (registered) or `false`
(registration refused).  `main.ts` distinguishes only throwing from
returning (the returned boolean is ignored). -/
inductive ProbeOutcome
  | throws
  | retTrue
  | retFalse
deriving DecidableEq

/-- External API calls made by the main process, recorded as a trace:
transient probe registration/unregistration, IPC image delivery, window
show/hide, timer cancellation, (re)registration of the main shortcut and
`globalShortcut.unregisterAll`. -/
inductive Call
  | registerTransient
  | unregisterTransient
  | sendImage (payload : String)
  | showWindow
  | hideWindow
  | clearTimer
  | registerMain
  | unregisterAllShortcuts
deriving DecidableEq

/-- The module-level mutable state of `main.ts`:
`overlayWindow` (whether the `BrowserWindow` is non-null), `imagePaths`,
`currentImageIndex`, `keyCheckInterval` (whether the recurring poll handle
exists), `isOverlayVisible`, and whether the permanent `Alt+F` press binding
is currently registered (its registration failure is only logged in the
source, so the model records a successful attempt). -/
structure AppState where
  overlayWindow : Bool
  imagePaths : List String
  currentImageIndex : Nat
  keyCheckInterval : Bool
  isOverlayVisible : Bool
  mainShortcutRegistered : Bool
deriving DecidableEq

/-- Filesystem facts consulted by `showOverlay` (`fs.existsSync`,
`fs.readFileSync` plus base64 encoding): whether a file exists, whether
reading/encoding it succeeds, and the encoded content when it does. -/
structure FileEnv where
  fileExists : String → Bool
  readOk : String → Bool
  fileData : String → String

/-- Node's `path.extname` for plain file names (no directory separators):
the suffix of the name starting at the last dot, empty when there is no dot
or the only dot is the leading character of a dotfile. -/
def extname (file : String) : String :=
  let cs := file.toList
  match cs.reverse.findIdx? (fun c => c == '.') with
  | none => ""
  | some k =>
    let pos := cs.length - 1 - k
    if pos = 0 then "" else String.mk (cs.drop pos)

/-- JavaScript `toLowerCase`, restricted to the ASCII case mapping used by
the extension comparisons. -/
def lowerStr (s : String) : String :=
  String.mk (s.toList.map Char.toLower)

/-- Translation of `getMimeType` (main.ts lines 126-137): switch on the
lower-cased extension with `image/png` as the default. -/
def getMimeType (filePath : String) : String :=
  let ext := lowerStr (extname filePath)
  if ext = ".png" then "image/png"
  else if ext = ".jpg" ∨ ext = ".jpeg" then "image/jpeg"
  else if ext = ".gif" then "image/gif"
  else if ext = ".webp" then "image/webp"
  else if ext = ".bmp" then "image/bmp"
  else "image/png"

/-- Translation of `showOverlay` (main.ts lines 87-123): bail out when the
window is null or the catalog is empty; otherwise try to read and encode the
current image (errors are only logged: a failed read, like a missing file,
sends nothing), then unconditionally show the window and set the visibility
flag. -/
def showOverlay (env : FileEnv) (s : AppState) : AppState × List Call :=
  if s.overlayWindow = false ∨ s.imagePaths.length = 0 then (s, [])
  else
    let imageToShow := s.imagePaths.getD s.currentImageIndex ""
    let sendCalls :=
      if env.fileExists imageToShow then
        if env.readOk imageToShow then
          [Call.sendImage
            ("data:" ++ getMimeType imageToShow ++ ";base64," ++
              env.fileData imageToShow)]
        else []
      else []
    ({ s with isOverlayVisible := true }, sendCalls ++ [Call.showWindow])

/-- Translation of `hideOverlay` (main.ts lines 139-149): return immediately
when the window is null; otherwise hide the window, clear the visibility
flag and advance `currentImageIndex = (currentImageIndex + 1) %
(imagePaths.length || 1)`. -/
def hideOverlay (s : AppState) : AppState × List Call :=
  if s.overlayWindow = false then (s, [])
  else
    ({ s with
        isOverlayVisible := false,
        currentImageIndex :=
          (s.currentImageIndex + 1) %
            (if s.imagePaths.length = 0 then 1 else s.imagePaths.length) },
      [Call.hideWindow])

/-- Translation of `registerMainShortcut` (main.ts lines 194-216): unregister
then register the permanent press binding.  A `false` return from `register`
is only logged in the source, so the model records the registration as
effective. -/
def registerMainShortcut (s : AppState) : AppState × List Call :=
  ({ s with mainShortcutRegistered := true }, [Call.registerMain])

/-- Translation of the body of `startKeyCheckTimer` up to the `setInterval`
call (main.ts lines 152-160): clear any existing timer, then install a new
one, so the poll handle exists afterwards. -/
def startKeyCheckTimer (s : AppState) : AppState × List Call :=
  if s.keyCheckInterval then ({ s with keyCheckInterval := true }, [Call.clearTimer])
  else ({ s with keyCheckInterval := true }, [])

/-- Translation of the `setInterval` callback of `startKeyCheckTimer`
(main.ts lines 160-190): attempt a transient registration of the chord;
`keyReleased` is true exactly when the call did not throw (the returned
boolean is ignored), in which case the transient registration is immediately
unregistered.  If released and the overlay is visible: hide it, cancel the
poll, restore the main shortcut.  If released and not visible: cancel the
poll and restore the main shortcut.  Otherwise do nothing this tick. -/
def keyCheckTick (s : AppState) (o : ProbeOutcome) : AppState × List Call :=
  let keyReleased := !(o == ProbeOutcome.throws)
  let probeCalls :=
    if o == ProbeOutcome.throws then [Call.registerTransient]
    else [Call.registerTransient, Call.unregisterTransient]
  if keyReleased && s.isOverlayVisible then
    let p := hideOverlay s
    let q := registerMainShortcut { p.1 with keyCheckInterval := false }
    (q.1, probeCalls ++ p.2 ++ [Call.clearTimer] ++ q.2)
  else if keyReleased then
    let q := registerMainShortcut { s with keyCheckInterval := false }
    (q.1, probeCalls ++ [Call.clearTimer] ++ q.2)
  else
    (s, probeCalls)

/-- Translation of the handler registered for the main shortcut (main.ts
lines 203-209): on a press edge, `showOverlay()` then `startKeyCheckTimer()`,
the latter unconditionally. -/
def onPressEdge (env : FileEnv) (s : AppState) : AppState × List Call :=
  let p := showOverlay env s
  let q := startKeyCheckTimer p.1
  (q.1, p.2 ++ q.2)

/-- Translation of the `will-quit` handler (main.ts lines 231-240):
`globalShortcut.unregisterAll()` then clear the poll timer if it exists. -/
def willQuit (s : AppState) : AppState × List Call :=
  let s1 : AppState := { s with mainShortcutRegistered := false }
  if s1.keyCheckInterval then
    ({ s1 with keyCheckInterval := false },
      [Call.unregisterAllShortcuts, Call.clearTimer])
  else (s1, [Call.unregisterAllShortcuts])

/-- Run a sequence of probe ticks.  A tick only fires while the poll handle
exists; once the interval has been cleared no further tick of that timer can
run. -/
def runTicks (s : AppState) (os : List ProbeOutcome) : AppState × List Call :=
  match os with
  | [] => (s, [])
  | o :: rest =>
    if s.keyCheckInterval then
      let p := keyCheckTick s o
      let q := runTicks p.1 rest
      (q.1, p.2 ++ q.2)
    else (s, [])

/-- Filesystem facts consulted by the directory-scanning catalog loader:
whether the images directory exists, its entries, and whether `readdirSync`
or `mkdirSync` throw. -/
structure DirFs where
  dirExists : Bool
  entries : List String
  readdirFails : Bool
  mkdirFails : Bool
deriving DecidableEq

/-- Result of loading the catalog: the image paths, the reset rotation
index, and whether the images directory was created by the call. -/
structure CatalogResult where
  imagePaths : List String
  currentImageIndex : Nat
  dirCreated : Bool
deriving DecidableEq

/-- The fixed extension allow-list of the scanning loader
(part_000 line 29). -/
def supportedExtensions : List String :=
  [".png", ".jpg", ".jpeg", ".gif", ".webp", ".bmp"]

/-- Translation of `loadImagePaths` of the directory-scanning revision
(src/unnamed/part_000 lines 18-47): reset paths and index; if the directory
exists, list it (a throwing `readdirSync` is caught, leaving the empty
list) and keep the entries whose lower-cased `path.extname` is in the
allow-list, joined onto the directory; if it does not exist, create it
(a throwing `mkdirSync` is caught) and leave the empty list. -/
def loadImagePathsScan (imagesDir : String) (fsEnv : DirFs) : CatalogResult :=
  if fsEnv.dirExists then
    if fsEnv.readdirFails then ⟨[], 0, false⟩
    else
      ⟨(fsEnv.entries.filter
          (fun f => supportedExtensions.contains (lowerStr (extname f)))).map
          (fun f => imagesDir ++ "/" ++ f), 0, false⟩
  else ⟨[], 0, !fsEnv.mkdirFails⟩

/-- The hard-coded file names of `loadImagePaths` in the current revision
(main.ts lines 24-29). -/
def imageFiles : List String :=
  ["0_gHANif08o4nJZF14.png",
   "istockphoto-1257169887-612x612.jpg",
   "istockphoto-1830236402-612x612.jpg",
   "Screenshot 2025-04-23 202743.png"]

/-- Translation of `loadImagePaths` of the current revision (main.ts lines
18-45): ignore the filesystem state (existence is checked only for
logging), join the four hard-coded file names onto `appPath/images`, and
reset the index; no directory is scanned, filtered or created. -/
def loadImagePaths (workspaceDir : String) (_fsEnv : DirFs) : CatalogResult :=
  ⟨imageFiles.map (fun f => workspaceDir ++ "/images/" ++ f), 0, false⟩

/-- State after `app.whenReady` (main.ts lines 218-229): catalog loaded with
index 0, overlay window created (hidden), main shortcut registered, no poll
running. -/
def initState (paths : List String) : AppState :=
  { overlayWindow := true, imagePaths := paths, currentImageIndex := 0,
    keyCheckInterval := false, isOverlayVisible := false,
    mainShortcutRegistered := true }

/-- One scheduler event of the running application: a press edge (possible
while the main binding is registered), a probe tick (possible while the
poll handle exists), the overlay window being closed (the `closed` handler
of main.ts lines 79-81 sets `overlayWindow` to null), or the `activate`
handler (main.ts lines 223-228): when no window exists it reruns
`loadImagePaths` — which deterministically reproduces the startup catalog
and resets the index — and recreates the hidden overlay window, touching
neither the visibility flag nor the poll handle. -/
inductive Step (env : FileEnv) (paths : List String) : AppState → AppState → Prop
  | press (s : AppState) :
      s.mainShortcutRegistered = true → Step env paths s (onPressEdge env s).1
  | tick (s : AppState) (o : ProbeOutcome) :
      s.keyCheckInterval = true → Step env paths s (keyCheckTick s o).1
  | windowClosed (s : AppState) :
      Step env paths s { s with overlayWindow := false }
  | activate (s : AppState) :
      s.overlayWindow = false →
      Step env paths s
        { s with
          overlayWindow := true, imagePaths := paths, currentImageIndex := 0 }

/-- States reachable from startup with catalog `paths` by scheduler
events. -/
inductive Reachable (env : FileEnv) (paths : List String) : AppState → Prop
  | init : Reachable env paths (initState paths)
  | step {s s' : AppState} :
      Reachable env paths s → Step env paths s s' → Reachable env paths s'

/-- Scheduler events of a nominal execution, one in which the overlay
window is never closed by the platform (and hence the `activate` recreation
path never runs): only press edges and probe ticks occur. -/
inductive StepNominal (env : FileEnv) : AppState → AppState → Prop
  | press (s : AppState) :
      s.mainShortcutRegistered = true → StepNominal env s (onPressEdge env s).1
  | tick (s : AppState) (o : ProbeOutcome) :
      s.keyCheckInterval = true → StepNominal env s (keyCheckTick s o).1

/-- States reachable from startup along a nominal execution (no
window-closure events). -/
inductive ReachableNominal (env : FileEnv) (paths : List String) : AppState → Prop
  | init : ReachableNominal env paths (initState paths)
  | step {s s' : AppState} :
      ReachableNominal env paths s → StepNominal env s s' →
      ReachableNominal env paths s'

/-- Concrete environment for counterexamples and witnesses: no image file
exists or is readable. -/
def env0 : FileEnv :=
  ⟨fun _ => false, fun _ => false, fun _ => ""⟩

/-- Concrete filesystem with no images directory. -/
def fs0 : DirFs :=
  ⟨false, [], false, false⟩

/-- A complete press/release cycle: a press edge followed by the first probe
tick whose transient registration returns. -/
def pressReleaseCycle (env : FileEnv) (s : AppState) : AppState :=
  (keyCheckTick (onPressEdge env s).1 ProbeOutcome.retTrue).1

/-- Catalog produced by the current revision's `loadImagePaths` at startup
(the filesystem state is irrelevant to it). -/
def mainCatalogPaths : List String :=
  (loadImagePaths "app" fs0).imagePaths

/-- State reached from startup after the overlay window is closed and a
press edge then fires: `showOverlay` bails out, `startKeyCheckTimer` still
runs. -/
def pollWhileHiddenState : AppState :=
  (onPressEdge env0 { initState mainCatalogPaths with overlayWindow := false }).1

/-- An ARMED-and-shown state: poll running, overlay visible, window
present. -/
def armedShownState : AppState :=
  { overlayWindow := true, imagePaths := ["a.png", "b.jpg"],
    currentImageIndex := 0, keyCheckInterval := true,
    isOverlayVisible := true, mainShortcutRegistered := true }

/-! Helper lemmas shared by the claim theorems. -/

/-- The code's `imagePaths.length || 1` divisor agrees with the spec's
`max(len(paths), 1)`. -/
theorem length_or_one (n : Nat) : (if n = 0 then 1 else n) = max n 1 := by
  split <;> omega

/-- Installing the key-check timer always leaves the poll handle in
existence. -/
theorem startKeyCheckTimer_poll (s : AppState) :
    (startKeyCheckTimer s).1.keyCheckInterval = true := by
  unfold startKeyCheckTimer
  split <;> rfl

/-- A press edge always ends with the poll handle in existence, whether or
not the overlay was shown. -/
theorem onPressEdge_poll (env : FileEnv) (s : AppState) :
    (onPressEdge env s).1.keyCheckInterval = true :=
  startKeyCheckTimer_poll (showOverlay env s).1

/-- A probe tick whose transient registration throws leaves the state
untouched and makes no further API call. -/
theorem keyCheckTick_throws (s : AppState) :
    keyCheckTick s ProbeOutcome.throws = (s, [Call.registerTransient]) := rfl

/-- A probe tick whose registration returns, taken while the overlay is
visible and the window exists: hide, advance the index, cancel the poll,
restore the main binding. -/
theorem keyCheckTick_release_visible (s : AppState) (o : ProbeOutcome)
    (ho : o ≠ ProbeOutcome.throws) (hvis : s.isOverlayVisible = true)
    (hwin : s.overlayWindow = true) :
    keyCheckTick s o =
      ({ s with
          isOverlayVisible := false,
          currentImageIndex :=
            (s.currentImageIndex + 1) %
              (if s.imagePaths.length = 0 then 1 else s.imagePaths.length),
          keyCheckInterval := false, mainShortcutRegistered := true },
        [Call.registerTransient, Call.unregisterTransient, Call.hideWindow,
          Call.clearTimer, Call.registerMain]) := by
  obtain ⟨w, ip, ci, kc, vis, reg⟩ := s
  cases hvis; cases hwin
  cases o with
  | throws => exact absurd rfl ho
  | retTrue => simp [keyCheckTick, hideOverlay, registerMainShortcut]
  | retFalse => simp [keyCheckTick, hideOverlay, registerMainShortcut]

/-- A probe tick whose registration returns, taken while the overlay is
visible but the window is gone: `hideOverlay` is a no-op, so only the poll
is cancelled and the main binding restored. -/
theorem keyCheckTick_release_visible_nowin (s : AppState) (o : ProbeOutcome)
    (ho : o ≠ ProbeOutcome.throws) (hvis : s.isOverlayVisible = true)
    (hwin : s.overlayWindow = false) :
    keyCheckTick s o =
      ({ s with keyCheckInterval := false, mainShortcutRegistered := true },
        [Call.registerTransient, Call.unregisterTransient,
          Call.clearTimer, Call.registerMain]) := by
  obtain ⟨w, ip, ci, kc, vis, reg⟩ := s
  cases hvis; cases hwin
  cases o with
  | throws => exact absurd rfl ho
  | retTrue => simp [keyCheckTick, hideOverlay, registerMainShortcut]
  | retFalse => simp [keyCheckTick, hideOverlay, registerMainShortcut]

/-- A probe tick whose registration returns, taken while the overlay is not
visible: cleanup only — cancel the poll and restore the main binding,
without touching the presenter state. -/
theorem keyCheckTick_release_hidden (s : AppState) (o : ProbeOutcome)
    (ho : o ≠ ProbeOutcome.throws) (hvis : s.isOverlayVisible = false) :
    keyCheckTick s o =
      ({ s with keyCheckInterval := false, mainShortcutRegistered := true },
        [Call.registerTransient, Call.unregisterTransient,
          Call.clearTimer, Call.registerMain]) := by
  obtain ⟨w, ip, ci, kc, vis, reg⟩ := s
  cases hvis
  cases o with
  | throws => exact absurd rfl ho
  | retTrue => simp [keyCheckTick, registerMainShortcut]
  | retFalse => simp [keyCheckTick, registerMainShortcut]

/-- Ticks of a cancelled timer never run: with no poll handle, `runTicks`
changes nothing and emits nothing. -/
theorem runTicks_not_armed (s : AppState) (os : List ProbeOutcome)
    (h : s.keyCheckInterval = false) : runTicks s os = (s, []) := by
  cases os <;> simp [runTicks, h]

/-- A press edge from a state with a window and a non-empty catalog shows
the overlay and installs the poll, leaving everything else unchanged. -/
theorem onPressEdge_shows (env : FileEnv) (s : AppState)
    (hw : s.overlayWindow = true) (hne : s.imagePaths.length ≠ 0) :
    (onPressEdge env s).1 =
      { s with isOverlayVisible := true, keyCheckInterval := true } := by
  obtain ⟨w, ip, ci, kc, vis, reg⟩ := s
  cases hw
  simp only [onPressEdge, showOverlay, startKeyCheckTimer]
  simp [hne]
  cases kc <;> simp

/-- A complete press/release cycle from a state with a window and a
non-empty catalog: the index advances by one modulo the catalog size and
the presenter returns to hidden/idle. -/
theorem pressReleaseCycle_eq (env : FileEnv) (s : AppState)
    (hw : s.overlayWindow = true) (hne : s.imagePaths.length ≠ 0) :
    pressReleaseCycle env s =
      { s with
        currentImageIndex := (s.currentImageIndex + 1) % s.imagePaths.length,
        keyCheckInterval := false, isOverlayVisible := false,
        mainShortcutRegistered := true } := by
  have h1 := onPressEdge_shows env s hw hne
  unfold pressReleaseCycle
  rw [h1]
  rw [keyCheckTick_release_visible
        { s with isOverlayVisible := true, keyCheckInterval := true }
        ProbeOutcome.retTrue (by decide) rfl hw]
  simp [hne]

/-- Every nominal scheduler event is a scheduler event of the full
model. -/
theorem stepNominal_isStep (env : FileEnv) (paths : List String)
    {s s' : AppState} (h : StepNominal env s s') : Step env paths s s' := by
  cases h with
  | press hreg => exact Step.press _ hreg
  | tick o hpoll => exact Step.tick _ o hpoll

/-- Every state of a nominal execution is reachable in the full model. -/
theorem reachableNominal_isReachable (env : FileEnv) (paths : List String)
    {s : AppState} (h : ReachableNominal env paths s) :
    Reachable env paths s := by
  induction h with
  | init => exact Reachable.init
  | step hr hstep ih => exact Reachable.step ih (stepNominal_isStep env paths hstep)

/-- The stale-visible state of the full model: after a shown ARMED period
whose window is closed mid-hold, the release-inferring tick cannot hide
(`hideOverlay` returns at its null-window guard, so the visibility flag
stays true) and only cancels the poll; a subsequent `activate` recreates
the window without touching the flag, so visible-with-window-and-no-poll
is reachable.  This is why the invariant of this development holds only
for nominal executions. -/
theorem stale_visible_state_reachable :
    ∃ s : AppState, Reachable env0 ["a.png"] s ∧
      s.isOverlayVisible = true ∧ s.overlayWindow = true ∧
      s.keyCheckInterval = false := by
  refine ⟨_,
    Reachable.step (Reachable.step (Reachable.step (Reachable.step
      Reachable.init (Step.press _ rfl)) (Step.windowClosed _))
      (Step.tick _ ProbeOutcome.retTrue (by decide)))
      (Step.activate _ (by decide)),
    by decide, by decide, by decide⟩

/-! Claim C1. -/

/-- C1 (counterexample): the claimed invariant "the poll handle exists iff
the overlay is visible (iff the detector is ARMED)" fails at a reachable
state: after the overlay window is closed (main.ts lines 79-81) a press
edge still fires, `showOverlay` bails out without setting the visibility
flag, yet `startKeyCheckTimer` is still invoked, so the release-probing
poll runs while the overlay is hidden. -/
theorem pollHandle_invariant_counterexample :
    ¬ (∀ s : AppState, Reachable env0 mainCatalogPaths s →
        (s.keyCheckInterval = true ↔ s.isOverlayVisible = true)) := by
  intro hclaim
  have hreach : Reachable env0 mainCatalogPaths pollWhileHiddenState :=
    Reachable.step (Reachable.step Reachable.init (Step.windowClosed _))
      (Step.press _ rfl)
  have hvis := (hclaim _ hreach).mp (by decide)
  exact absurd hvis (by decide)

/-- C1 (amended): the biconditional holds exactly on nominal executions:
with a non-empty catalog and the overlay window never closed by the
platform (only press edges and probe ticks occurring), every reachable
state satisfies "the poll handle exists iff the overlay is visible" (and
ARMED is by definition the existence of the poll handle).  Outside that
restriction it fails in both directions: a press edge with no window or an
empty catalog starts the poll while hidden
(`pollHandle_invariant_counterexample`), and a release tick taken after
the window was closed leaves the visibility flag stale-true, persisting
through the window's recreation on activate
(`stale_visible_state_reachable`). -/
theorem poll_iff_visible_nominal (env : FileEnv) (paths : List String)
    (hne : paths.length ≠ 0) (s : AppState)
    (hr : ReachableNominal env paths s) :
    (s.keyCheckInterval = true ↔ s.isOverlayVisible = true) := by
  suffices h : s.imagePaths = paths ∧ s.overlayWindow = true ∧
      (s.keyCheckInterval = true ↔ s.isOverlayVisible = true) by
    exact h.2.2
  induction hr with
  | init => exact ⟨rfl, rfl, by simp [initState]⟩
  | step hr' hstep ih =>
    cases hstep with
    | press hreg =>
      rename_i t
      rw [onPressEdge_shows env t ih.2.1 (by rw [ih.1]; exact hne)]
      exact ⟨ih.1, ih.2.1, by simp⟩
    | tick o hpoll =>
      rename_i t
      have hvis : t.isOverlayVisible = true := (ih.2.2).mp hpoll
      by_cases ho : o = ProbeOutcome.throws
      · subst ho
        rw [keyCheckTick_throws]
        exact ⟨ih.1, ih.2.1, ih.2.2⟩
      · rw [keyCheckTick_release_visible t o ho hvis ih.2.1]
        exact ⟨ih.1, ih.2.1, by simp⟩

/-- C1 (witness): along a nominal execution with a one-image catalog, the
state just after a press edge satisfies the biconditional. -/
theorem poll_iff_visible_nominal_witness :
    (["a.png"] : List String).length ≠ 0 ∧
    ((onPressEdge env0 (initState ["a.png"])).1.keyCheckInterval = true ↔
      (onPressEdge env0 (initState ["a.png"])).1.isOverlayVisible = true) :=
  ⟨by decide,
    poll_iff_visible_nominal env0 ["a.png"] (by decide) _
      (ReachableNominal.step ReachableNominal.init (StepNominal.press _ rfl))⟩

/-! Claim C2. -/

/-- C2 (counterexample): a press edge delivered with an empty catalog does
leave the overlay hidden, but it does start the release-probing poll: the
press handler (main.ts lines 203-209) invokes `startKeyCheckTimer`
unconditionally after `showOverlay` bails out. -/
theorem empty_catalog_press_starts_poll :
    (onPressEdge env0 (initState [])).1.keyCheckInterval = true ∧
    (onPressEdge env0 (initState [])).1.isOverlayVisible = false := by
  decide

/-- C2 (amended): with an empty catalog a press edge leaves every state
component unchanged except that the poll handle is installed: the overlay
stays hidden (no show, no IPC send, index untouched), but
`startKeyCheckTimer` still runs, emitting at most the cancellation of a
previous timer. -/
theorem onPressEdge_empty_catalog (env : FileEnv) (s : AppState)
    (h : s.imagePaths = []) :
    (onPressEdge env s).1 = { s with keyCheckInterval := true } ∧
    (onPressEdge env s).2 =
      (if s.keyCheckInterval then [Call.clearTimer] else []) := by
  have hshow : showOverlay env s = (s, []) := by
    unfold showOverlay
    simp [h]
  constructor
  · show (startKeyCheckTimer (showOverlay env s).1).1 = _
    rw [hshow]
    unfold startKeyCheckTimer
    split <;> rfl
  · show (showOverlay env s).2 ++ (startKeyCheckTimer (showOverlay env s).1).2 = _
    rw [hshow]
    unfold startKeyCheckTimer
    split <;> simp_all
/-- C2 (witness): the amended statement at the startup state with an empty
catalog. -/
theorem onPressEdge_empty_catalog_witness :
    (initState []).imagePaths = [] ∧
    (onPressEdge env0 (initState [])).1 =
      { initState [] with keyCheckInterval := true } ∧
    (onPressEdge env0 (initState [])).2 = [] := by
  have h := onPressEdge_empty_catalog env0 (initState []) rfl
  exact ⟨rfl, h.1, by simpa using h.2⟩

/-! Claim C3. -/

/-- C3 (counterexample): a probe tick on which the transient re-acquisition
returns failure (`register` returns `false` without throwing) does NOT
leave the detector ARMED: main.ts lines 164-173 ignore the returned
boolean, so any non-throwing call sets `keyReleased`, and the tick infers
release, hides the overlay and cancels the poll. -/
theorem probe_retFalse_infers_release :
    (keyCheckTick armedShownState ProbeOutcome.retFalse).1.keyCheckInterval = false ∧
    Call.hideWindow ∈ (keyCheckTick armedShownState ProbeOutcome.retFalse).2 := by
  decide

/-- C3 (amended): failure is recognized only as a throw: a tick whose
`register` call throws leaves the state untouched and emits nothing; a tick
whose call returns (whether `true` or `false`) immediately unregisters the
transient acquisition, infers release (hiding the overlay when it is
visible and the window exists), cancels the recurring poll, and
re-registers the permanent press binding. -/
theorem keyCheckTick_throw_vs_return (s : AppState) (o : ProbeOutcome)
    (ho : o ≠ ProbeOutcome.throws) :
    keyCheckTick s ProbeOutcome.throws = (s, [Call.registerTransient]) ∧
    (keyCheckTick s o).2.take 2 =
      [Call.registerTransient, Call.unregisterTransient] ∧
    (keyCheckTick s o).1.keyCheckInterval = false ∧
    (keyCheckTick s o).1.mainShortcutRegistered = true ∧
    Call.registerMain ∈ (keyCheckTick s o).2 ∧
    (s.isOverlayVisible = true → s.overlayWindow = true →
      Call.hideWindow ∈ (keyCheckTick s o).2) := by
  refine ⟨keyCheckTick_throws s, ?_⟩
  cases hv : s.isOverlayVisible with
  | false =>
    rw [keyCheckTick_release_hidden s o ho hv]
    simp [hv]
  | true =>
    cases hw : s.overlayWindow with
    | false =>
      rw [keyCheckTick_release_visible_nowin s o ho hv hw]
      simp [hw]
    | true =>
      rw [keyCheckTick_release_visible s o ho hv hw]
      simp

/-- C3 (witness): the amended statement at a concrete ARMED state and a
returning probe. -/
theorem keyCheckTick_throw_vs_return_witness :
    ProbeOutcome.retFalse ≠ ProbeOutcome.throws ∧
    (keyCheckTick (initState ["a.png"]) ProbeOutcome.retFalse).1.keyCheckInterval
      = false ∧
    Call.registerMain ∈ (keyCheckTick (initState ["a.png"]) ProbeOutcome.retFalse).2 := by
  refine ⟨by decide, ?_, ?_⟩
  · exact (keyCheckTick_throw_vs_return (initState ["a.png"])
      ProbeOutcome.retFalse (by decide)).2.2.1
  · exact (keyCheckTick_throw_vs_return (initState ["a.png"])
      ProbeOutcome.retFalse (by decide)).2.2.2.2.1

/-! Claim C4. -/

/-- C4: over one ARMED period that starts shown with a window, the
`released` inference — and its `hideOverlay` — fires exactly once over any
tick sequence containing a returning probe: the first such tick hides,
cancels the interval, and no later tick of the cancelled timer runs. -/
theorem release_fires_exactly_once (s : AppState) (os : List ProbeOutcome)
    (hpoll : s.keyCheckInterval = true) (hvis : s.isOverlayVisible = true)
    (hwin : s.overlayWindow = true)
    (hrel : ∃ o ∈ os, o ≠ ProbeOutcome.throws) :
    (runTicks s os).2.count Call.hideWindow = 1 := by
  induction os generalizing s with
  | nil => simp at hrel
  | cons o rest ih =>
    have h2 : (runTicks s (o :: rest)).2 =
        (keyCheckTick s o).2 ++ (runTicks (keyCheckTick s o).1 rest).2 := by
      simp [runTicks, hpoll]
    by_cases ho : o = ProbeOutcome.throws
    · subst ho
      rw [h2, keyCheckTick_throws]
      have hrel' : ∃ x ∈ rest, x ≠ ProbeOutcome.throws := by
        rcases hrel with ⟨x, hx, hxne⟩
        cases List.mem_cons.mp hx with
        | inl h => exact absurd h hxne
        | inr h => exact ⟨x, h, hxne⟩
      simpa using ih s hpoll hvis hwin hrel'
    · rw [h2, keyCheckTick_release_visible s o ho hvis hwin,
          runTicks_not_armed _ rest rfl]
      simp

/-- C4 (witness): three held ticks then a release, then a stray tick
outcome that can no longer fire: exactly one hide. -/
theorem release_fires_exactly_once_witness :
    armedShownState.keyCheckInterval = true ∧
    armedShownState.isOverlayVisible = true ∧
    (runTicks armedShownState
      [ProbeOutcome.throws, ProbeOutcome.throws, ProbeOutcome.throws,
        ProbeOutcome.retTrue, ProbeOutcome.retTrue]).2.count Call.hideWindow = 1 :=
  ⟨rfl, rfl,
    release_fires_exactly_once armedShownState _ rfl rfl rfl (by decide)⟩

/-! Claim C5. -/

/-- Iterating complete press/release cycles from startup: the rotation
index cycles through the catalog and the presenter returns to
hidden/idle. -/
theorem pressReleaseCycle_iterate (env : FileEnv) (paths : List String)
    (hne : paths.length ≠ 0) (N : Nat) :
    (pressReleaseCycle env)^[N] (initState paths) =
      { overlayWindow := true, imagePaths := paths,
        currentImageIndex := N % paths.length,
        keyCheckInterval := false, isOverlayVisible := false,
        mainShortcutRegistered := true } := by
  induction N with
  | zero => simp [initState]
  | succ n ih =>
    rw [Function.iterate_succ_apply', ih,
        pressReleaseCycle_eq env _ rfl hne]
    simp [Nat.mod_add_mod]

/-- C5: each hide advances the index by `(index + 1) mod max(len(paths), 1)`
(the code's `imagePaths.length || 1` divisor), an empty catalog keeps the
index at 0, and starting from index 0 with a catalog of size K > 0, after
exactly N complete press/release cycles the index equals N mod K. -/
theorem rotation_index_cycles (env : FileEnv) (paths : List String) (N : Nat)
    (hpos : 0 < paths.length) :
    (∀ s : AppState, s.overlayWindow = true →
        (hideOverlay s).1.currentImageIndex =
          (s.currentImageIndex + 1) % max s.imagePaths.length 1) ∧
    (∀ s : AppState, s.overlayWindow = true → s.imagePaths = [] →
        s.currentImageIndex = 0 → (hideOverlay s).1.currentImageIndex = 0) ∧
    ((pressReleaseCycle env)^[N] (initState paths)).currentImageIndex =
      N % paths.length := by
  refine ⟨?_, ?_, ?_⟩
  · intro s hw
    simp [hideOverlay, hw]
    cases hp : s.imagePaths with
    | nil => simp
    | cons a t =>
      have hmax : (a :: t : List String).length ⊔ 1 = (a :: t).length := by
        simp
      simp [hmax]
  · intro s hw hempty hzero
    simp [hideOverlay, hw, hempty, hzero]
  · rw [pressReleaseCycle_iterate env paths (Nat.pos_iff_ne_zero.mp hpos) N]

/-- C5 (witness): five cycles over a three-image catalog land on index
5 mod 3. -/
theorem rotation_index_cycles_witness :
    0 < (["a.png", "b.jpg", "c.gif"] : List String).length ∧
    ((pressReleaseCycle env0)^[5]
        (initState ["a.png", "b.jpg", "c.gif"])).currentImageIndex = 5 % 3 :=
  ⟨by decide,
    (rotation_index_cycles env0 ["a.png", "b.jpg", "c.gif"] 5 (by decide)).2.2⟩

/-! Claim C6. -/

/-- C6 (counterexample): in the current revision `loadImagePaths` does none
of what the claim describes: with the images directory absent it returns
the four hard-coded paths — not the empty sequence — and creates no
directory (and its output never depends on the directory entries at
all). -/
theorem loadImagePaths_hardcoded_counterexample :
    fs0.dirExists = false ∧
    (loadImagePaths "app" fs0).imagePaths ≠ [] ∧
    (loadImagePaths "app" fs0).dirCreated = false := by
  refine ⟨rfl, ?_, rfl⟩
  simp [loadImagePaths, imageFiles]

/-- C6 (amended): the directory-scanning loader of the earlier revision
(src/unnamed/part_000) behaves as claimed: it never fails the caller; with
the directory absent it returns the empty sequence and creates the
directory (when `mkdirSync` succeeds); with the directory present and
readable, exactly the entries whose lower-cased extension is in the fixed
allow-list survive, joined onto the directory as absolute paths; an
unreadable directory yields the empty sequence. -/
theorem loadImagePathsScan_spec (imagesDir : String) (fsEnv : DirFs) :
    (fsEnv.dirExists = false →
      (loadImagePathsScan imagesDir fsEnv).imagePaths = [] ∧
      (fsEnv.mkdirFails = false →
        (loadImagePathsScan imagesDir fsEnv).dirCreated = true)) ∧
    (fsEnv.dirExists = true → fsEnv.readdirFails = true →
      (loadImagePathsScan imagesDir fsEnv).imagePaths = []) ∧
    (fsEnv.dirExists = true → fsEnv.readdirFails = false →
      ∀ p : String,
        p ∈ (loadImagePathsScan imagesDir fsEnv).imagePaths ↔
          ∃ f, f ∈ fsEnv.entries ∧
            supportedExtensions.contains (lowerStr (extname f)) = true ∧
            p = imagesDir ++ "/" ++ f) := by
  refine ⟨?_, ?_, ?_⟩
  · intro hd
    unfold loadImagePathsScan
    simp [hd]
  · intro hd hr
    unfold loadImagePathsScan
    simp [hd, hr]
  · intro hd hr p
    unfold loadImagePathsScan
    simp only [hd, hr, if_true, if_false, Bool.false_eq_true, ite_false,
      ite_true, List.mem_map, List.mem_filter]
    constructor
    · rintro ⟨f, ⟨hf, hext⟩, hp⟩
      exact ⟨f, hf, hext, hp.symm⟩
    · rintro ⟨f, hf, hext, hp⟩
      exact ⟨f, ⟨hf, hext⟩, hp.symm⟩

/-- C6 (witness): an absent directory is created and yields the empty
catalog; a present directory keeps `a.PNG` (case-insensitively) and drops
`b.txt`. -/
theorem loadImagePathsScan_spec_witness :
    fs0.dirExists = false ∧
    (loadImagePathsScan "base" fs0).imagePaths = [] ∧
    (loadImagePathsScan "base" fs0).dirCreated = true ∧
    ("base/a.PNG" ∈
      (loadImagePathsScan "base" ⟨true, ["a.PNG", "b.txt"], false, false⟩).imagePaths ∧
     "base/b.txt" ∉
      (loadImagePathsScan "base" ⟨true, ["a.PNG", "b.txt"], false, false⟩).imagePaths) := by
  have h := (loadImagePathsScan_spec "base" fs0).1 rfl
  have hscan := (loadImagePathsScan_spec "base"
    ⟨true, ["a.PNG", "b.txt"], false, false⟩).2.2 rfl rfl
  refine ⟨rfl, h.1, h.2 rfl, ?_, ?_⟩
  · exact (hscan "base/a.PNG").mpr (by decide)
  · intro hmem
    exact absurd ((hscan "base/b.txt").mp hmem) (by decide)

/-! Claim C7. -/

/-- C7: when reading or encoding the current image fails during show, the
error is only logged: nothing is delivered to the renderer, but the overlay
window is still shown and the visibility flag set, with the rotation index
and poll state untouched, so the press/release cycle proceeds unchanged. -/
theorem showOverlay_display_error_still_shows (env : FileEnv) (s : AppState)
    (hwin : s.overlayWindow = true) (hne : s.imagePaths.length ≠ 0)
    (hfail : env.readOk (s.imagePaths.getD s.currentImageIndex "") = false) :
    (showOverlay env s).1.isOverlayVisible = true ∧
    Call.showWindow ∈ (showOverlay env s).2 ∧
    (∀ payload : String, Call.sendImage payload ∉ (showOverlay env s).2) ∧
    (showOverlay env s).1.currentImageIndex = s.currentImageIndex ∧
    (showOverlay env s).1.keyCheckInterval = s.keyCheckInterval := by
  have hbranch : showOverlay env s =
      ({ s with isOverlayVisible := true }, [Call.showWindow]) := by
    unfold showOverlay
    rw [if_neg (by simp [hwin, hne])]
    cases hfe : env.fileExists (s.imagePaths.getD s.currentImageIndex "") with
    | false =>
      simp only [hfe]
      simp
    | true =>
      simp only [hfe, hfail]
      simp
  rw [hbranch]
  simp

/-- C7 (witness): with no image readable, a show from startup still makes
the overlay visible without any IPC delivery. -/
theorem showOverlay_display_error_witness :
    (initState ["a.png"]).overlayWindow = true ∧
    env0.readOk "app/images/a.png" = false ∧
    (showOverlay env0 (initState ["a.png"])).1.isOverlayVisible = true ∧
    Call.showWindow ∈ (showOverlay env0 (initState ["a.png"])).2 := by
  have h := showOverlay_display_error_still_shows env0 (initState ["a.png"])
      rfl (by decide) rfl
  exact ⟨rfl, rfl, h.1, h.2.1⟩

/-! Claim C8. -/

/-- C8: `will-quit` while ARMED cancels the poll synchronously and
unregisters every chord binding; the detector is back to IDLE without
emitting, and no tick — hence no `released` inference — can run
afterwards. -/
theorem willQuit_cancels_poll_no_release (s : AppState)
    (os : List ProbeOutcome) :
    (willQuit s).1.keyCheckInterval = false ∧
    (willQuit s).1.mainShortcutRegistered = false ∧
    Call.unregisterAllShortcuts ∈ (willQuit s).2 ∧
    Call.hideWindow ∉ (willQuit s).2 ∧
    runTicks (willQuit s).1 os = ((willQuit s).1, []) := by
  have h1 : (willQuit s).1.keyCheckInterval = false := by
    simp only [willQuit]
    split <;> simp_all
  have h2 : (willQuit s).1.mainShortcutRegistered = false := by
    simp only [willQuit]
    split <;> rfl
  refine ⟨h1, h2, ?_, ?_, runTicks_not_armed _ os h1⟩
  · simp only [willQuit]
    split <;> simp
  · simp only [willQuit]
    split <;> simp

/-! Claim C9. -/

/-- C9: a probe tick that infers release while the overlay is not visible
cancels the poll and re-registers the permanent press binding, but does not
hide: the rotation index and the visibility flag are untouched, so an ARMED
period in which nothing was shown never advances the rotation. -/
theorem tick_release_while_hidden (s : AppState) (o : ProbeOutcome)
    (ho : o ≠ ProbeOutcome.throws) (hvis : s.isOverlayVisible = false) :
    (keyCheckTick s o).1.currentImageIndex = s.currentImageIndex ∧
    (keyCheckTick s o).1.isOverlayVisible = false ∧
    (keyCheckTick s o).1.keyCheckInterval = false ∧
    (keyCheckTick s o).1.mainShortcutRegistered = true ∧
    Call.hideWindow ∉ (keyCheckTick s o).2 ∧
    Call.registerMain ∈ (keyCheckTick s o).2 := by
  rw [keyCheckTick_release_hidden s o ho hvis]
  simp [hvis]

/-- C9 (witness): a release-inferring tick from a hidden ARMED state keeps
index 0 and hides nothing. -/
theorem tick_release_while_hidden_witness :
    ({ initState ["a.png"] with keyCheckInterval := true } : AppState).isOverlayVisible
      = false ∧
    (keyCheckTick { initState ["a.png"] with keyCheckInterval := true }
        ProbeOutcome.retTrue).1.currentImageIndex = 0 ∧
    Call.hideWindow ∉ (keyCheckTick { initState ["a.png"] with keyCheckInterval := true }
        ProbeOutcome.retTrue).2 := by
  have h := tick_release_while_hidden
    { initState ["a.png"] with keyCheckInterval := true }
    ProbeOutcome.retTrue (by decide) rfl
  exact ⟨rfl, h.1, h.2.2.2.2.1⟩

/-! Claim C10. -/

/-- C10: `hideOverlay` with no overlay window returns immediately with the
visibility flag and rotation index unchanged; with a window it hides and
advances the index, and any index change implies the window existed. -/
theorem hideOverlay_no_window_noop (s : AppState) :
    (s.overlayWindow = false → hideOverlay s = (s, [])) ∧
    (s.overlayWindow = true →
      (hideOverlay s).1.currentImageIndex =
        (s.currentImageIndex + 1) % max s.imagePaths.length 1 ∧
      (hideOverlay s).1.isOverlayVisible = false ∧
      Call.hideWindow ∈ (hideOverlay s).2) ∧
    ((hideOverlay s).1.currentImageIndex ≠ s.currentImageIndex →
      s.overlayWindow = true) := by
  refine ⟨?_, ?_, ?_⟩
  · intro hw
    simp [hideOverlay, hw]
  · intro hw
    refine ⟨?_, by simp [hideOverlay, hw], by simp [hideOverlay, hw]⟩
    simp [hideOverlay, hw]
    cases hp : s.imagePaths with
    | nil => simp
    | cons a t =>
      have hmax : (a :: t : List String).length ⊔ 1 = (a :: t).length := by
        simp
      simp [hmax]
  · intro hchg
    cases hw : s.overlayWindow with
    | false =>
      exact absurd (show (hideOverlay s).1.currentImageIndex = s.currentImageIndex
        by simp [hideOverlay, hw]) hchg
    | true => rfl

/-- C10 (witness): with the window gone, `hideOverlay` is the identity and
emits nothing. -/
theorem hideOverlay_no_window_noop_witness :
    ({ initState ["a.png"] with overlayWindow := false } : AppState).overlayWindow
      = false ∧
    hideOverlay { initState ["a.png"] with overlayWindow := false } =
      ({ initState ["a.png"] with overlayWindow := false }, []) :=
  ⟨rfl, (hideOverlay_no_window_noop _).1 rfl⟩

end FocusRing
